import Mathlib

/-!
Verification of the ntex-multipart streaming parser core.

We give a shallow embedding of the parts of `ntex-multipart` that the
claims under scrutiny depend on:

* `safety.rs` — the `Safety` consumption-ordering guard (reference
  count, per-token level snapshot, shared `clean` flag);
* `payload.rs` — the `PayloadBuffer` byte accumulator and its
  `read_until` / `readline` operations;
* `multipart.rs` — `InnerMultipart::skip_until_boundary`, the
  `FirstBoundary` dispatch arm of `InnerMultipart::poll`,
  `Multipart::boundary`, `Multipart::new` and the guard/error logic of
  `Multipart::poll_next` (`impl Stream for Multipart`);
* `field.rs` — the guard logic of `Field::poll_next`.

Bytes are modelled as `Nat` (45 = `-`, 13 = `\r`, 10 = `\n`), byte
strings as `List Nat`.  Rust slice indexing, which panics when out of
bounds, is modelled by a partial `slice` returning `Option`; a `panicked`
outcome marks where the Rust code would panic (e.g. `Option::unwrap` on
`None`).  External crates (`mime`, header maps) enter only through
`Multipart::boundary`; the outcomes of their parsing calls are inputs of
the model (`MimeInfo`), mirroring the nested `if let` chain of the
source.
-/

namespace NtexMultipart

/-- The `MultipartError` taxonomy from `error.rs` (payload-carrying
variants are collapsed to their tag; no claim depends on the payloads). -/
inductive MultipartError where
  | noContentType
  | parseContentType
  | incompatibleContentType
  | boundary
  | contentDispositionMissing
  | contentDispositionNameMissing
  | nested
  | incomplete
  | decode
  | payloadErr
  | notConsumed
  deriving DecidableEq, Repr

/-! ## Safety (safety.rs)

A `Safety` value holds `level` (snapshot of `Rc::strong_count(&payload)`
at creation time) and shares `payload` (whose strong count we model as
`count`) and the `clean` cell with all tokens cloned from the same root.
`SafetyState` is the shared state, `SafetyToken` the per-token data. -/

structure SafetyState where
  count : Nat
  clean : Bool
  deriving DecidableEq, Repr

structure SafetyToken where
  level : Nat
  deriving DecidableEq, Repr

/-- `Safety::new`: fresh `Rc` has strong count 1, `clean` starts `true`. -/
def Safety.newState : SafetyState := { count := 1, clean := true }

/-- The root token records `level = Rc::strong_count = 1`. -/
def Safety.rootToken : SafetyToken := { level := 1 }

/-- `Safety::clone`: cloning the `Rc` raises the strong count by one. -/
def Safety.cloneState (s : SafetyState) : SafetyState :=
  { s with count := s.count + 1 }

/-- `Safety::clone`: the new token snapshots the raised count as its level. -/
def Safety.cloneToken (s : SafetyState) : SafetyToken :=
  { level := s.count + 1 }

/-- `impl Drop for Safety`: while the drop body runs the token's own `Rc`
is still alive, so `Rc::strong_count` is the current `count`; when the
count differs from the token's level the body executes
`self.clean.set(true)`.  Afterwards the `Rc` field is released, lowering
the count by one.  (The `LocalWaker` wake-up is pure notification and is
not modelled.) -/
def Safety.dropState (s : SafetyState) (t : SafetyToken) : SafetyState :=
  { count := s.count - 1
    clean := if s.count ≠ t.level then true else s.clean }

/-- `Safety::current`: `Rc::strong_count(&self.payload) == self.level && self.clean.get()`. -/
def Safety.current (s : SafetyState) (t : SafetyToken) : Bool :=
  s.count == t.level && s.clean

/-- `Safety::is_clean`: `self.clean.get()`. -/
def Safety.isClean (s : SafetyState) : Bool :=
  s.clean

/-- States of the shared `Safety` cell reachable from `Safety::new` by any
interleaving of clones and drops (a drop may use any token level, so every
drop order — in order or out of order — is covered). -/
inductive SafetyReach : SafetyState → Prop where
  | init : SafetyReach Safety.newState
  | clone {s : SafetyState} : SafetyReach s → SafetyReach (Safety.cloneState s)
  | dropTok {s : SafetyState} (t : SafetyToken) :
      SafetyReach s → SafetyReach (Safety.dropState s t)

/-! ## Guard logic of `Field::poll_next` (field.rs, lines 76–88) and
`Multipart::poll_next` (multipart.rs, lines 118–133). -/

/-- Outcome of one `poll_next` call on a `Field`, as far as the guard
decides it: `proceedInner` stands for entering `inner.poll(&self.safety)`. -/
inductive FieldPoll where
  | readyErr (e : MultipartError)
  | proceedInner
  | pending
  deriving DecidableEq, Repr

/-- The guard dispatch of `Field::poll_next`: current → poll the inner
field; not current and not clean → `Ready(Some(Err(NotConsumed)))`;
otherwise → `Pending`. -/
def Field.pollNextGuard (s : SafetyState) (t : SafetyToken) : FieldPoll :=
  if Safety.current s t then FieldPoll.proceedInner
  else if !(Safety.isClean s) then FieldPoll.readyErr MultipartError.notConsumed
  else FieldPoll.pending

/-! ## PayloadBuffer (payload.rs) -/

/-- `twoway::find_bytes(haystack, needle)`: index of the first occurrence
of `needle` as a contiguous sub-list of `haystack`, if any. -/
def findBytes (haystack needle : List Nat) : Option Nat :=
  if needle.isPrefixOf haystack then some 0
  else
    match haystack with
    | [] => none
    | _ :: t => (findBytes t needle).map (fun i => i + 1)

/-- `PayloadBuffer`: the byte accumulator (`buf`) and the upstream EOF
flag.  The boxed upstream stream itself feeds `buf` through
`poll_stream`, which is outside the synchronous reads modelled here. -/
structure PayloadBuffer where
  eof : Bool
  buf : List Nat
  deriving DecidableEq, Repr

/-- `PayloadBuffer::read_until`: split off the shortest prefix ending with
`line`; when absent, fail with `Incomplete` at EOF and report `None`
("pending") otherwise. -/
def PayloadBuffer.readUntil (p : PayloadBuffer) (line : List Nat) :
    Except MultipartError (Option (List Nat)) × PayloadBuffer :=
  match findBytes p.buf line with
  | some idx =>
      (Except.ok (some (p.buf.take (idx + line.length))),
       { p with buf := p.buf.drop (idx + line.length) })
  | none =>
      if p.eof then (Except.error MultipartError.incomplete, p)
      else (Except.ok none, p)

/-- `PayloadBuffer::readline`: `read_until(b"\n")`. -/
def PayloadBuffer.readline (p : PayloadBuffer) :
    Except MultipartError (Option (List Nat)) × PayloadBuffer :=
  p.readUntil [10]

/-! ## InnerMultipart::skip_until_boundary (multipart.rs, lines 205–245) -/

/-- Rust slice `l[a..b]`: defined only when `a ≤ b ≤ l.length`; out of
bounds means a Rust panic, modelled as `none`. -/
def slice (l : List Nat) (a b : Nat) : Option (List Nat) :=
  if a ≤ b ∧ b ≤ l.length then some ((l.drop a).take (b - a)) else none

/-- The first test of the `skip_until_boundary` loop body:
`&chunk[..2] == b"--" && &chunk[2..chunk.len() - 2] == boundary` with
Rust's short-circuit evaluation; `none` marks a slice panic. -/
def fbDashCheck (chunk boundary : List Nat) : Option Bool :=
  match slice chunk 0 2 with
  | none => none
  | some pre =>
      if pre = [45, 45] then
        match slice chunk 2 (chunk.length - 2) with
        | none => none
        | some mid => some (mid = boundary)
      else some false

/-- The second test of the loop body:
`&chunk[..boundary.len()] == b && &chunk[boundary.len()..boundary.len() + 2] == b"--"`. -/
def fbEofCheck (chunk boundary : List Nat) : Option Bool :=
  match slice chunk 0 boundary.length with
  | none => none
  | some hd =>
      if hd = boundary then
        match slice chunk boundary.length (boundary.length + 2) with
        | none => none
        | some d2 => some (d2 = [45, 45])
      else some false

/-- Result of `skip_until_boundary`: `ok` mirrors
`Ok(Some(eof)) / Ok(None)`, `err` an early `Err(_)` return, `panicked` a
slice-bounds panic, `fuelOut` exhaustion of the step budget (unreachable
for the budget used by `InnerMultipart.skipUntilBoundary`, since every
loop iteration consumes at least one buffered byte). -/
inductive SkipOutcome where
  | ok (eof : Option Bool)
  | err (e : MultipartError)
  | panicked
  | fuelOut
  deriving DecidableEq, Repr

/-- What the body of the `skip_until_boundary` loop does with one scanned
line: `some o` is an early exit with outcome `o` (a `break` followed by
the final `Ok(Some(eof))`, or an `Err` return, or a panic), `none` means
the loop continues with the next line.  Exactly the source's control
flow: the empty-chunk check, the too-short skip, the `--<boundary>` test
(break with `eof = false`), the second too-short skip, and the
`<boundary>--` test (break with `eof = true`). -/
def skipStep (boundary chunk : List Nat) : Option SkipOutcome :=
  if chunk = [] then some (SkipOutcome.err MultipartError.boundary)
  else if chunk.length < boundary.length then none
  else
    match fbDashCheck chunk boundary with
    | none => some SkipOutcome.panicked
    | some true => some (SkipOutcome.ok (some false))
    | some false =>
        if chunk.length < boundary.length + 2 then none
        else
          match fbEofCheck chunk boundary with
          | none => some SkipOutcome.panicked
          | some true => some (SkipOutcome.ok (some true))
          | some false => none

/-- The `loop` of `skip_until_boundary`, one constructor of `fuel` per
iteration.  Read a line; on `Err` propagate; on `None` fail `Incomplete`
at EOF else report pending (`Ok(None)`); on a chunk run `skipStep` and
either exit or continue with the shortened buffer. -/
def skipLoop (boundary : List Nat) : Nat → PayloadBuffer → SkipOutcome × PayloadBuffer
  | 0, p => (SkipOutcome.fuelOut, p)
  | fuel + 1, p =>
    match p.readline with
    | (Except.error e, p') => (SkipOutcome.err e, p')
    | (Except.ok none, p') =>
        if p'.eof then (SkipOutcome.err MultipartError.incomplete, p')
        else (SkipOutcome.ok none, p')
    | (Except.ok (some chunk), p') =>
        match skipStep boundary chunk with
        | some o => (o, p')
        | none => skipLoop boundary fuel p'

/-- `InnerMultipart::skip_until_boundary`.  Each iteration of the source
loop removes at least one byte from the buffer (a returned line always
contains its `\n`), so `buf.length + 1` iterations always suffice. -/
def InnerMultipart.skipUntilBoundary (p : PayloadBuffer) (boundary : List Nat) :
    SkipOutcome × PayloadBuffer :=
  skipLoop boundary (p.buf.length + 1) p

/-! ## The FirstBoundary arm of `InnerMultipart::poll`
(multipart.rs, lines 282–296) -/

/-- `InnerState` from multipart.rs. -/
inductive InnerState where
  | Eof
  | FirstBoundary
  | Boundary
  | Headers
  deriving DecidableEq, Repr

/-- How the `InnerState::FirstBoundary` dispatch arm of
`InnerMultipart::poll` leaves the poll: an early return
(`Poll::Ready(None)`, `Poll::Ready(Some(Err _))`, `Poll::Pending`), a
fall-through into the header-reading section (`toHeaders`), or a panic /
fuel marker propagated from the scan. -/
inductive PollFB where
  | readyNone
  | readyErr (e : MultipartError)
  | pending
  | toHeaders
  | panicked
  | fuelOut
  deriving DecidableEq, Repr

/-- The `InnerState::FirstBoundary` arm of `InnerMultipart::poll`:
`skip_until_boundary` errors propagate via `?` (state unchanged),
`Some(true)` sets the state to `Eof` and returns `Ready(None)`,
`Some(false)` sets `Headers` and falls through, `None` returns
`Pending`. -/
def InnerMultipart.pollFirstBoundary (p : PayloadBuffer) (boundary : List Nat) :
    PollFB × InnerState × PayloadBuffer :=
  match InnerMultipart.skipUntilBoundary p boundary with
  | (SkipOutcome.err e, p') => (PollFB.readyErr e, InnerState.FirstBoundary, p')
  | (SkipOutcome.panicked, p') => (PollFB.panicked, InnerState.FirstBoundary, p')
  | (SkipOutcome.fuelOut, p') => (PollFB.fuelOut, InnerState.FirstBoundary, p')
  | (SkipOutcome.ok none, p') => (PollFB.pending, InnerState.FirstBoundary, p')
  | (SkipOutcome.ok (some true), p') => (PollFB.readyNone, InnerState.Eof, p')
  | (SkipOutcome.ok (some false), p') => (PollFB.toHeaders, InnerState.Headers, p')

/-! ## Multipart::boundary, Multipart::new, Multipart::poll_next
(multipart.rs, lines 58–134) -/

/-- Inputs of `Multipart::boundary`: the outcomes of the external
header-map and `mime` crate calls it chains (`headers.get`, `to_str`,
`parse::<Mime>`, `type_() == MULTIPART`, `get_param(BOUNDARY)`). -/
structure MimeInfo where
  hasContentType : Bool
  toStrOk : Bool
  mimeParseOk : Bool
  topLevelMultipart : Bool
  boundaryParam : Option (List Nat)
  deriving DecidableEq, Repr

/-- `Multipart::boundary`: the nested `if let` chain selecting the error. -/
def Multipart.boundaryOf (h : MimeInfo) : Except MultipartError (List Nat) :=
  if h.hasContentType then
    if h.toStrOk then
      if h.mimeParseOk then
        if h.topLevelMultipart then
          match h.boundaryParam with
          | some b => Except.ok b
          | none => Except.error MultipartError.boundary
        else Except.error MultipartError.incompatibleContentType
      else Except.error MultipartError.parseContentType
    else Except.error MultipartError.parseContentType
  else Except.error MultipartError.noContentType

/-- The `Multipart` struct: stored init error, its own `Safety` root
token over the shared guard state, and whether `inner` is `Some`
(the inner parser's contents are not needed by the claims settled here:
they only reach `Option::is_some` / `unwrap`). -/
structure MultipartState where
  error : Option MultipartError
  safety : SafetyState
  root : SafetyToken
  hasInner : Bool
  deriving DecidableEq, Repr

/-- `Multipart::new`: on `Ok` store no error and build the inner parser,
on `Err` store the error with `inner: None`; both arms call
`Safety::new`. -/
def Multipart.new (r : Except MultipartError (List Nat)) : MultipartState :=
  match r with
  | Except.ok _ =>
      { error := none, safety := Safety.newState, root := Safety.rootToken,
        hasInner := true }
  | Except.error e =>
      { error := some e, safety := Safety.newState, root := Safety.rootToken,
        hasInner := false }

/-- Outcome of one `Multipart::poll_next` call, as far as the error latch
and guard decide it: `proceedInner` stands for entering
`inner.poll(&this.safety, cx)`, `panicked` for
`self.inner.as_mut().unwrap()` evaluated on `None`. -/
inductive MultipartPoll where
  | readyErr (e : MultipartError)
  | proceedInner
  | pending
  | panicked
  deriving DecidableEq, Repr

/-- `Multipart::poll_next` (`impl Stream for Multipart`): take and yield
the stored error if any; else when the token is current, unwrap `inner`
(panicking on `None`) and poll it; else `NotConsumed` when not clean,
`Pending` otherwise. -/
def Multipart.pollNext (m : MultipartState) : MultipartPoll × MultipartState :=
  match m.error with
  | some err => (MultipartPoll.readyErr err, { m with error := none })
  | none =>
      if Safety.current m.safety m.root then
        if m.hasInner then (MultipartPoll.proceedInner, m)
        else (MultipartPoll.panicked, m)
      else if !(Safety.isClean m.safety) then
        (MultipartPoll.readyErr MultipartError.notConsumed, m)
      else (MultipartPoll.pending, m)

/-- Headers with no `Content-Type` entry at all (the other fields record
that none of the downstream parsing steps can succeed either). -/
def noContentTypeHeaders : MimeInfo :=
  { hasContentType := false, toStrOk := false, mimeParseOk := false,
    topLevelMultipart := false, boundaryParam := none }

/-! ## Shared helper lemmas -/

/-- The `clean` cell is `true` in every reachable `Safety` state: it
starts `true`, `clone` copies it, and the only write in the code base is
`self.clean.set(true)` in `Drop`. -/
theorem safety_clean_of_reach {s : SafetyState} (h : SafetyReach s) : s.clean = true := by
  induction h with
  | init => rfl
  | clone _ ih => simpa [Safety.cloneState] using ih
  | dropTok t _ ih => simp [Safety.dropState, ih]

/-! ## Claim C1 -/

/-- Claim C1 as stated is false.  Concrete out-of-order scenario: build
the root token, clone a child token (`Field::new` via `Safety::clone`),
then drop the root while the child is live.  The claim asserts the shared
clean flag becomes false and a poll of the `Field` (whose token is no
longer current) yields `NotConsumed`; in the code `Drop` runs
`clean.set(true)`, so the flag stays `true` and the poll returns
`Pending`. -/
theorem C1_counterexample :
    Safety.isClean
        (Safety.dropState (Safety.cloneState Safety.newState) Safety.rootToken) = true
    ∧ Safety.current
        (Safety.dropState (Safety.cloneState Safety.newState) Safety.rootToken)
        (Safety.cloneToken Safety.newState) = false
    ∧ Field.pollNextGuard
        (Safety.dropState (Safety.cloneState Safety.newState) Safety.rootToken)
        (Safety.cloneToken Safety.newState) = FieldPoll.pending := by
  decide

/-- Claim C1, amended: however Safety tokens are cloned and dropped — in
order or out of order — the shared clean flag remains `true` (`Drop` sets
it to `true`, never `false`), so a poll of a `Field`, or of the outer
`Multipart` with no stored error, never yields `NotConsumed`: with a
non-current token it returns `Pending`. -/
theorem C1_clean_remains_true (s : SafetyState) (t : SafetyToken) (b : Bool)
    (h : SafetyReach s) :
    Safety.isClean s = true
    ∧ Field.pollNextGuard s t ≠ FieldPoll.readyErr MultipartError.notConsumed
    ∧ (Multipart.pollNext
        { error := none, safety := s, root := t, hasInner := b }).1
        ≠ MultipartPoll.readyErr MultipartError.notConsumed := by
  have hc : s.clean = true := safety_clean_of_reach h
  refine ⟨hc, ?_, ?_⟩
  · unfold Field.pollNextGuard
    cases hcur : Safety.current s t <;> simp [hcur, Safety.isClean, hc]
  · unfold Multipart.pollNext
    cases hcur : Safety.current s t <;> cases b <;>
      simp [hcur, Safety.isClean, hc]

/-- Witness for `C1_clean_remains_true` at the out-of-order drop state of
`C1_counterexample`, reachable by `init`, `clone`, `dropTok root`. -/
theorem C1_clean_remains_true_witness :
    Safety.isClean
        (Safety.dropState (Safety.cloneState Safety.newState) Safety.rootToken) = true
    ∧ Field.pollNextGuard
        (Safety.dropState (Safety.cloneState Safety.newState) Safety.rootToken)
        (Safety.cloneToken Safety.newState)
        ≠ FieldPoll.readyErr MultipartError.notConsumed
    ∧ (Multipart.pollNext
        { error := none
          safety := Safety.dropState (Safety.cloneState Safety.newState) Safety.rootToken
          root := Safety.cloneToken Safety.newState
          hasInner := false }).1
        ≠ MultipartPoll.readyErr MultipartError.notConsumed :=
  C1_clean_remains_true _ _ false
    (SafetyReach.dropTok Safety.rootToken (SafetyReach.clone SafetyReach.init))

/-! ## Claim C3 -/

/-- Claim C3: the first poll after an initialization error does yield the
stored error exactly once (the error slot is `take`n), but the claim's
"every subsequent poll returns without panicking" is contradicted by the
code: on the second poll `error` is `None`, the fresh root token is
current (`count = level = 1`, `clean = true`), and
`self.inner.as_mut().unwrap()` is evaluated on `None`, i.e. the code
panics.  The post-error state is a fixpoint, so every later poll panics
the same way.  Evaluation at the failing input (headers with no
`Content-Type`, polled twice). -/
theorem C3_error_once_then_panic :
    (Multipart.pollNext (Multipart.new (Multipart.boundaryOf noContentTypeHeaders))).1
        = MultipartPoll.readyErr MultipartError.noContentType
    ∧ (Multipart.pollNext
        (Multipart.pollNext (Multipart.new (Multipart.boundaryOf noContentTypeHeaders))).2).1
        = MultipartPoll.panicked
    ∧ (Multipart.pollNext
        (Multipart.pollNext (Multipart.new (Multipart.boundaryOf noContentTypeHeaders))).2).2
        = (Multipart.pollNext (Multipart.new (Multipart.boundaryOf noContentTypeHeaders))).2 := by
  decide

/-! ## Claim C2: helper lemmas about the boundary scan -/

/-- `findBytes` locates the first `\n` just past a newline-free prefix. -/
theorem findBytes_newline (l1 l2 : List Nat) (h : 10 ∉ l1) :
    findBytes (l1 ++ 10 :: l2) [10] = some l1.length := by
  induction l1 with
  | nil => simp [findBytes, List.isPrefixOf]
  | cons a t ih =>
      have ha : a ≠ 10 := fun hq => h (hq ▸ List.mem_cons_self a t)
      have ht : (10 : Nat) ∉ t := fun hq => h (List.mem_cons_of_mem a hq)
      simp [findBytes, List.isPrefixOf, Ne.symm ha, ih ht]

/-- `readline` on a buffer whose first newline closes the prefix `l1`. -/
theorem readline_split (e : Bool) (l1 l2 : List Nat) (h : 10 ∉ l1) :
    PayloadBuffer.readline ⟨e, l1 ++ 10 :: l2⟩ =
      (Except.ok (some (l1 ++ [10])), ⟨e, l2⟩) := by
  simp [PayloadBuffer.readline, PayloadBuffer.readUntil, findBytes_newline l1 l2 h,
    List.take_append_eq_append_take, List.drop_append_eq_append_drop,
    Nat.sub_eq_zero_of_le]

/-- `slice` within bounds is a plain drop-and-take. -/
theorem slice_eq (l : List Nat) (a b : Nat) (h1 : a ≤ b) (h2 : b ≤ l.length) :
    slice l a b = some ((l.drop a).take (b - a)) := by
  simp [slice, h1, h2]

/-- On the line `--<boundary>--\r\n` the first loop test compares
`boundary ++ [45,45]` (two bytes longer) with `boundary` and fails. -/
theorem fbDashCheck_dashes (boundary : List Nat) :
    fbDashCheck (45 :: 45 :: (boundary ++ [45, 45, 13, 10])) boundary = some false := by
  have hlen : (45 :: 45 :: (boundary ++ [45, 45, 13, 10])).length
      = boundary.length + 6 := by simp
  have hs1 : slice (45 :: 45 :: (boundary ++ [45, 45, 13, 10])) 0 2 = some [45, 45] := by
    rw [slice_eq _ _ _ (by omega) (by omega)]
    rfl
  have hs2 : slice (45 :: 45 :: (boundary ++ [45, 45, 13, 10])) 2
      ((45 :: 45 :: (boundary ++ [45, 45, 13, 10])).length - 2)
      = some (boundary ++ [45, 45]) := by
    rw [slice_eq _ _ _ (by omega) (by omega)]
    rw [hlen]
    have hdrop : (45 :: 45 :: (boundary ++ [45, 45, 13, 10])).drop 2
        = boundary ++ [45, 45, 13, 10] := rfl
    rw [hdrop]
    rw [show boundary.length + 6 - 2 - 2 = boundary.length + 2 by omega]
    rw [List.take_append]
    rfl
  have hmid : boundary ++ [45, 45] ≠ boundary := by
    intro hq
    have hl := congrArg List.length hq
    simp at hl
  unfold fbDashCheck
  rw [hs1]
  simp only [reduceIte]
  rw [hs2]
  simp [hmid]

/-- On the line `--<boundary>--\r\n` the second loop test compares a list
starting with `45` (`-`) with a boundary that contains no `45` and
fails: the closing line is just skipped. -/
theorem fbEofCheck_dashes (boundary : List Nat) (hlen : 2 ≤ boundary.length)
    (h45 : 45 ∉ boundary) :
    fbEofCheck (45 :: 45 :: (boundary ++ [45, 45, 13, 10])) boundary = some false := by
  obtain ⟨k, hk⟩ := Nat.exists_eq_add_of_le hlen
  have hclen : (45 :: 45 :: (boundary ++ [45, 45, 13, 10])).length
      = boundary.length + 6 := by simp
  have hs1 : slice (45 :: 45 :: (boundary ++ [45, 45, 13, 10])) 0 boundary.length
      = some (45 :: 45 :: (boundary ++ [45, 45, 13, 10]).take k) := by
    rw [slice_eq _ _ _ (by omega) (by omega)]
    rw [List.drop_zero, Nat.sub_zero, hk]
    rw [show 2 + k = (k + 1) + 1 by omega]
    rw [List.take_succ_cons, List.take_succ_cons]
  have hhd : 45 :: 45 :: (boundary ++ [45, 45, 13, 10]).take k ≠ boundary := by
    intro hq
    exact h45 (hq ▸ List.mem_cons_self 45 _)
  unfold fbEofCheck
  rw [hs1]
  simp [hhd]

/-- On the closing line the whole step is a skip (`none` = continue). -/
theorem skipStep_dashes (boundary : List Nat) (hlen : 2 ≤ boundary.length)
    (h45 : 45 ∉ boundary) :
    skipStep boundary (45 :: 45 :: (boundary ++ [45, 45, 13, 10])) = none := by
  have hclen : (45 :: 45 :: (boundary ++ [45, 45, 13, 10])).length
      = boundary.length + 6 := by simp
  unfold skipStep
  rw [fbDashCheck_dashes boundary, fbEofCheck_dashes boundary hlen h45]
  simp [hclen]

/-- On the line `<boundary>--\r\n` the first loop test fails (the chunk
does not start with `--`, since the boundary contains no `45`). -/
theorem fbDashCheck_bare (boundary : List Nat) (hlen : 2 ≤ boundary.length)
    (h45 : 45 ∉ boundary) :
    fbDashCheck (boundary ++ [45, 45, 13, 10]) boundary = some false := by
  have hclen : (boundary ++ [45, 45, 13, 10]).length = boundary.length + 4 := by simp
  have hs1 : slice (boundary ++ [45, 45, 13, 10]) 0 2 = some (boundary.take 2) := by
    rw [slice_eq _ _ _ (by omega) (by omega)]
    rw [List.drop_zero, Nat.sub_zero, List.take_append_eq_append_take,
      Nat.sub_eq_zero_of_le hlen]
    simp
  have hpre : boundary.take 2 ≠ [45, 45] := by
    intro hq
    apply h45
    apply List.take_subset 2 boundary
    rw [hq]
    simp
  unfold fbDashCheck
  rw [hs1]
  simp [hpre]

/-- On the line `<boundary>--\r\n` the second loop test succeeds: this is
the line that makes `skip_until_boundary` report `eof = true`. -/
theorem fbEofCheck_bare (boundary : List Nat) :
    fbEofCheck (boundary ++ [45, 45, 13, 10]) boundary = some true := by
  have hclen : (boundary ++ [45, 45, 13, 10]).length = boundary.length + 4 := by simp
  have hs1 : slice (boundary ++ [45, 45, 13, 10]) 0 boundary.length
      = some boundary := by
    rw [slice_eq _ _ _ (by omega) (by omega)]
    rw [List.drop_zero, Nat.sub_zero, List.take_left]
  have hs2 : slice (boundary ++ [45, 45, 13, 10]) boundary.length (boundary.length + 2)
      = some [45, 45] := by
    rw [slice_eq _ _ _ (by omega) (by omega)]
    rw [Nat.add_sub_cancel_left, List.drop_left]
    rfl
  unfold fbEofCheck
  rw [hs1]
  simp only [reduceIte]
  rw [hs2]
  simp

/-- On the line `<boundary>--\r\n` the step breaks with `eof = true`. -/
theorem skipStep_bare (boundary : List Nat) (hlen : 2 ≤ boundary.length)
    (h45 : 45 ∉ boundary) :
    skipStep boundary (boundary ++ [45, 45, 13, 10])
      = some (SkipOutcome.ok (some true)) := by
  have hclen : (boundary ++ [45, 45, 13, 10]).length = boundary.length + 4 := by simp
  unfold skipStep
  rw [fbDashCheck_bare boundary hlen h45, fbEofCheck_bare boundary]
  simp [hclen]

/-- One unfolding step of the scan loop. -/
theorem skipLoop_succ (boundary : List Nat) (fuel : Nat) (p : PayloadBuffer) :
    skipLoop boundary (fuel + 1) p =
      match p.readline with
      | (Except.error e, p') => (SkipOutcome.err e, p')
      | (Except.ok none, p') =>
          if p'.eof then (SkipOutcome.err MultipartError.incomplete, p')
          else (SkipOutcome.ok none, p')
      | (Except.ok (some chunk), p') =>
          match skipStep boundary chunk with
          | some o => (o, p')
          | none => skipLoop boundary fuel p' := rfl

/-- `skip_until_boundary` on the single line `<boundary>--\r\n`: the scan
breaks at once with `eof = true` and the buffer is drained. -/
theorem skipUntilBoundary_bare (boundary : List Nat) (e : Bool)
    (hlen : 2 ≤ boundary.length) (h45 : 45 ∉ boundary) (h10 : 10 ∉ boundary) :
    InnerMultipart.skipUntilBoundary ⟨e, boundary ++ [45, 45, 13, 10]⟩ boundary
      = (SkipOutcome.ok (some true), ⟨e, []⟩) := by
  have h10' : (10 : Nat) ∉ boundary ++ [45, 45, 13] := by
    simpa using h10
  have hrl : PayloadBuffer.readline ⟨e, boundary ++ [45, 45, 13, 10]⟩
      = (Except.ok (some (boundary ++ [45, 45, 13, 10])), ⟨e, []⟩) := by
    have := readline_split e (boundary ++ [45, 45, 13]) [] h10'
    simpa using this
  unfold InnerMultipart.skipUntilBoundary
  rw [skipLoop_succ, hrl]
  simp only [skipStep_bare boundary hlen h45]

/-- `skip_until_boundary` on the single line `--<boundary>--\r\n` with the
upstream at EOF: the closing line is skipped as preamble junk and the
next `readline` fails with `Incomplete`. -/
theorem skipUntilBoundary_dashes (boundary : List Nat)
    (hlen : 2 ≤ boundary.length) (h45 : 45 ∉ boundary) (h10 : 10 ∉ boundary) :
    InnerMultipart.skipUntilBoundary
        ⟨true, 45 :: 45 :: (boundary ++ [45, 45, 13, 10])⟩ boundary
      = (SkipOutcome.err MultipartError.incomplete, ⟨true, []⟩) := by
  have h10' : (10 : Nat) ∉ 45 :: 45 :: (boundary ++ [45, 45, 13]) := by
    simpa using h10
  have hrl : PayloadBuffer.readline ⟨true, 45 :: 45 :: (boundary ++ [45, 45, 13, 10])⟩
      = (Except.ok (some (45 :: 45 :: (boundary ++ [45, 45, 13, 10]))), ⟨true, []⟩) := by
    have := readline_split true (45 :: 45 :: (boundary ++ [45, 45, 13])) [] h10'
    simpa using this
  unfold InnerMultipart.skipUntilBoundary
  rw [skipLoop_succ, hrl]
  simp only [skipStep_dashes boundary hlen h45]
  rw [show ({ eof := true, buf := 45 :: 45 :: (boundary ++ [45, 45, 13, 10]) } :
      PayloadBuffer).buf.length = (45 :: (boundary ++ [45, 45, 13, 10])).length + 1
    from List.length_cons _ _]
  rw [skipLoop_succ]
  rfl

/-! ## Claim C2: settlement -/

/-- Claim C2 as stated is false.  Concrete input: boundary `abc`
(`[97,98,99]`), parser in `FirstBoundary` state, buffered body exactly
the closing line `--abc--\r\n`, upstream at EOF.  The claim asserts the
stream transitions to `Eof` and ends without yielding a part; the code
instead skips the line (neither loop test matches `--<boundary>--`),
hits EOF, and the poll yields `Err(Incomplete)` with the state still
`FirstBoundary`. -/
theorem C2_counterexample :
    InnerMultipart.pollFirstBoundary
        ⟨true, [45, 45, 97, 98, 99, 45, 45, 13, 10]⟩ [97, 98, 99]
      = (PollFB.readyErr MultipartError.incomplete, InnerState.FirstBoundary,
         ⟨true, []⟩) := by
  decide

/-- Claim C2, amended: in the `FirstBoundary` state a line exactly
`--<boundary>--` (the closing boundary) is not recognised — it is skipped
like preamble junk, so with the upstream at EOF the poll yields
`Err(Incomplete)` and the state stays `FirstBoundary`.  The transition to
`Eof` (stream ends, no part yielded) is instead triggered by a line
starting `<boundary>--`, i.e. the bare boundary followed by two dashes
without the leading `--`.  Stated for any boundary of length ≥ 2
containing neither `-` (45) nor `\n` (10). -/
theorem C2_amended (boundary : List Nat) (hlen : 2 ≤ boundary.length)
    (h45 : 45 ∉ boundary) (h10 : 10 ∉ boundary) :
    InnerMultipart.pollFirstBoundary
        ⟨true, 45 :: 45 :: (boundary ++ [45, 45, 13, 10])⟩ boundary
      = (PollFB.readyErr MultipartError.incomplete, InnerState.FirstBoundary,
         ⟨true, []⟩)
    ∧ InnerMultipart.pollFirstBoundary ⟨true, boundary ++ [45, 45, 13, 10]⟩ boundary
      = (PollFB.readyNone, InnerState.Eof, ⟨true, []⟩) := by
  constructor
  · unfold InnerMultipart.pollFirstBoundary
    rw [skipUntilBoundary_dashes boundary hlen h45 h10]
  · unfold InnerMultipart.pollFirstBoundary
    rw [skipUntilBoundary_bare boundary true hlen h45 h10]

/-- Witness for `C2_amended` with the concrete boundary `xy`
(`[120,121]`). -/
theorem C2_amended_witness :
    2 ≤ ([120, 121] : List Nat).length
    ∧ (InnerMultipart.pollFirstBoundary
          ⟨true, 45 :: 45 :: ([120, 121] ++ [45, 45, 13, 10])⟩ [120, 121]
        = (PollFB.readyErr MultipartError.incomplete, InnerState.FirstBoundary,
           ⟨true, []⟩)
      ∧ InnerMultipart.pollFirstBoundary
          ⟨true, [120, 121] ++ [45, 45, 13, 10]⟩ [120, 121]
        = (PollFB.readyNone, InnerState.Eof, ⟨true, []⟩)) :=
  ⟨by decide, C2_amended [120, 121] (by decide) (by decide) (by decide)⟩

end NtexMultipart
